import Mathlib

/-!
Shallow embedding of the `WeatherService` class of `weather_service.py`
from the AgriAdvisorMCPServer repository.

JSON-like Python values are modelled by the inductive type `Json`
(numbers as rationals; Python `None` as `Json.null`).  Fallible Python
operations (attribute errors, type errors on comparisons, network or
JSON-decoding exceptions) are modelled with `Except Unit`.  The network
environment of a single `get_weather_data` call is a record `Network`
giving the outcome of each HTTP request the code can issue; each
provider helper additionally reports the list of requests it issued, so
that claims about short-circuiting and skipped network calls can be
stated.
-/

namespace AgriAdvisor

/-- A Python/JSON value as it flows through `weather_service.py`. -/
inductive Json where
  | null : Json
  | bool : Bool → Json
  | num : ℚ → Json
  | str : String → Json
  | arr : List Json → Json
  | obj : List (String × Json) → Json

/-- Key lookup in an object; `none` for a missing key or a non-object. -/
def jGet : Json → String → Option Json
  | Json.obj fs, k => fs.lookup k
  | _, _ => none

/-- Python `k in d` for a dict. -/
def jHasKey (j : Json) (k : String) : Bool :=
  (jGet j k).isSome

/-- Python truthiness of a value. -/
def pyTruthy : Json → Bool
  | Json.null => false
  | Json.bool b => b
  | Json.num q => q ≠ 0
  | Json.str s => s ≠ ""
  | Json.arr xs => !xs.isEmpty
  | Json.obj fs => !fs.isEmpty

/-- Python `d.get(k, default)`: raises (AttributeError) on a non-dict,
otherwise returns the value under `k`, or `default` when `k` is absent.
Note the default is used only when the key is absent, never when the key
is present with value `None`. -/
def pyDictGet (j : Json) (k : String) (default : Json) : Except Unit Json :=
  match j with
  | Json.obj fs =>
    match fs.lookup k with
    | some v => Except.ok v
    | none => Except.ok default
  | _ => Except.error ()

/-- Numeric view used by Python comparisons: Python `bool` is an `int`. -/
def toNum : Json → Option ℚ
  | Json.num q => some q
  | Json.bool b => some (if b then 1 else 0)
  | _ => none

/-- Python `a > b` on the values this code compares: defined on numbers
(and booleans, which are numbers in Python); raises `TypeError`
otherwise — in particular when one side is `None`. -/
def pyGt (a b : Json) : Except Unit Bool :=
  match toNum a, toNum b with
  | some x, some y => Except.ok (decide (x > y))
  | _, _ => Except.error ()

/-- Python `a < b`, with the same domain as `pyGt`. -/
def pyLt (a b : Json) : Except Unit Bool :=
  match toNum a, toNum b with
  | some x, some y => Except.ok (decide (x < y))
  | _, _ => Except.error ()

/-- Python short-circuiting `and` of two fallible boolean expressions. -/
def pyAnd (a b : Except Unit Bool) : Except Unit Bool :=
  match a with
  | Except.error e => Except.error e
  | Except.ok x => if x then b else Except.ok false

/-- English half of the bilingual message of the rain branch. -/
def msg_rain : String := "Due to rain, no irrigation needed today."

/-- English half of the bilingual message of the extreme-heat branch. -/
def msg_extreme_heat : String := "Extreme heat - irrigate immediately."

/-- English half of the bilingual message of the hot-weather branch. -/
def msg_hot_weather : String := "Hot weather - irrigate in evening."

/-- English half of the bilingual message of the default branch. -/
def msg_regular : String := "Weather is favorable - regular irrigation."

/-- English half of the message returned by the `except` handler. -/
def msg_unavailable : String :=
  "Weather data not available - follow regular irrigation schedule."

/-- Body of the `try` block of
`WeatherService.get_irrigation_recommendation` (lines 180-193):
reads `current`, `temp`, `humidity` and `rain["1h"]` with the literal
defaults of the source and walks the `if`/`elif` chain.  Any Python
exception surfaces as `Except.error`. -/
def irrigationCore (weather_data : Json) : Except Unit String :=
  match pyDictGet weather_data "current" (Json.obj []) with
  | Except.error e => Except.error e
  | Except.ok current =>
  match pyDictGet current "temp" (Json.num 25) with
  | Except.error e => Except.error e
  | Except.ok temp =>
  match pyDictGet current "humidity" (Json.num 60) with
  | Except.error e => Except.error e
  | Except.ok humidity =>
  match pyDictGet current "rain" (Json.obj []) with
  | Except.error e => Except.error e
  | Except.ok rainObj =>
  match pyDictGet rainObj "1h" (Json.num 0) with
  | Except.error e => Except.error e
  | Except.ok rain =>
  match pyGt rain (Json.num 5) with
  | Except.error e => Except.error e
  | Except.ok c1 =>
  if c1 then Except.ok msg_rain
  else
  match pyAnd (pyLt humidity (Json.num 40)) (pyGt temp (Json.num 35)) with
  | Except.error e => Except.error e
  | Except.ok c2 =>
  if c2 then Except.ok msg_extreme_heat
  else
  match pyAnd (pyLt humidity (Json.num 60)) (pyGt temp (Json.num 30)) with
  | Except.error e => Except.error e
  | Except.ok c3 =>
  if c3 then Except.ok msg_hot_weather
  else Except.ok msg_regular

set_option linter.unusedVariables false in
/-- `WeatherService.get_irrigation_recommendation` (lines 178-196): the
`try` body with the outer `except` converting any exception into the
generic unavailable-data message.  The `crop` argument is accepted but
unused, exactly as in the source. -/
def get_irrigation_recommendation (weather_data : Json) (crop : String) : String :=
  match irrigationCore weather_data with
  | Except.ok s => s
  | Except.error _ => msg_unavailable

/-- An HTTP response as seen by the code: a status code and the result
of `response.json()` (`none` when the body is not valid JSON, so that
calling `.json()` raises). -/
structure HttpResponse where
  status : Nat
  body : Option Json

/-- The network environment of one `get_weather_data` call: the outcome
of each HTTP request the code can issue.  `Except.error ()` means
`client.get` itself raises (network error, timeout). -/
structure Network where
  weatherUnion : Except Unit HttpResponse
  imdCurrent : Except Unit HttpResponse
  imdForecast : Except Unit HttpResponse
  openMeteo : Except Unit HttpResponse

/-- Tags for the HTTP requests the code can issue, used to record which
network calls a run actually performed. -/
inductive Req where
  | weatherUnion : Req
  | imdCurrent : Req
  | imdForecast : Req
  | openMeteo : Req
deriving DecidableEq

/-- The static `city_coords` table of `_get_open_meteo_data`
(lines 111-120). -/
def city_coords : List (String × (ℚ × ℚ)) :=
  [("delhi", (28.6139, 77.2090)),
   ("mumbai", (19.0760, 72.8777)),
   ("bangalore", (12.9716, 77.5946)),
   ("chennai", (13.0827, 80.2707)),
   ("kolkata", (22.5726, 88.3639)),
   ("hyderabad", (17.3850, 78.4867)),
   ("pune", (18.5204, 73.8567)),
   ("ahmedabad", (23.0225, 72.5714))]

/-- Normalization of a decoded Weather Union payload into the dict
built at lines 68-79; each `data.get` can raise when `data` is not a
dict. -/
def normWeatherUnion (data : Json) (city state : String) : Except Unit Json :=
  match pyDictGet data "temperature" Json.null with
  | Except.error e => Except.error e
  | Except.ok t =>
  match pyDictGet data "humidity" Json.null with
  | Except.error e => Except.error e
  | Except.ok h =>
  match pyDictGet data "pressure" Json.null with
  | Except.error e => Except.error e
  | Except.ok p =>
  match pyDictGet data "weather_condition" (Json.str "Clear") with
  | Except.error e => Except.error e
  | Except.ok wc =>
  match pyDictGet data "wind_speed" (Json.num 0) with
  | Except.error e => Except.error e
  | Except.ok ws =>
  match pyDictGet data "rainfall" (Json.num 0) with
  | Except.error e => Except.error e
  | Except.ok rf =>
  Except.ok (Json.obj
    [("current", Json.obj
       [("temp", t),
        ("humidity", h),
        ("pressure", p),
        ("weather", Json.arr [Json.obj [("main", wc)]]),
        ("wind", Json.obj [("speed", ws)]),
        ("rain", Json.obj [("1h", rf)])]),
     ("location", Json.str (city ++ ", " ++ state)),
     ("source", Json.str "weather_union")])

/-- `WeatherService._get_weather_union_data` (lines 58-80), paired with
the list of HTTP requests it issues. -/
def get_weather_union_data (net : Network) (city state : String) :
    List Req × Except Unit Json :=
  ([Req.weatherUnion],
   match net.weatherUnion with
   | Except.error e => Except.error e
   | Except.ok resp =>
     if resp.status = 200 then
       match resp.body with
       | none => Except.error ()
       | some data => normWeatherUnion data city state
     else Except.ok (Json.obj [("error", Json.str "Weather Union API failed")]))

/-- Normalization of a decoded IMD current-weather payload together
with the already-computed forecast value, building the dict of lines
92-104. -/
def normImd (currentData forecastData : Json) (city : String) : Except Unit Json :=
  match pyDictGet currentData "temperature" Json.null with
  | Except.error e => Except.error e
  | Except.ok t =>
  match pyDictGet currentData "humidity" Json.null with
  | Except.error e => Except.error e
  | Except.ok h =>
  match pyDictGet currentData "pressure" Json.null with
  | Except.error e => Except.error e
  | Except.ok p =>
  match pyDictGet currentData "weather" (Json.str "Clear") with
  | Except.error e => Except.error e
  | Except.ok w =>
  match pyDictGet currentData "wind_speed" (Json.num 0) with
  | Except.error e => Except.error e
  | Except.ok ws =>
  match pyDictGet currentData "rainfall" (Json.num 0) with
  | Except.error e => Except.error e
  | Except.ok rf =>
  Except.ok (Json.obj
    [("current", Json.obj
       [("temp", t),
        ("humidity", h),
        ("pressure", p),
        ("weather", Json.arr [Json.obj [("main", w)]]),
        ("wind", Json.obj [("speed", ws)]),
        ("rain", Json.obj [("1h", rf)])]),
     ("forecast", forecastData),
     ("location", Json.str city),
     ("source", Json.str "imd_official")])

/-- `WeatherService._get_imd_data` (lines 82-105): both requests are
issued up front; `forecast_data` falls back to the empty dict when the
forecast request did not return status 200, while a 200 forecast
response with a malformed body raises. -/
def get_imd_data (net : Network) (city : String) :
    List Req × Except Unit Json :=
  match net.imdCurrent with
  | Except.error e => ([Req.imdCurrent], Except.error e)
  | Except.ok currentResp =>
  match net.imdForecast with
  | Except.error e => ([Req.imdCurrent, Req.imdForecast], Except.error e)
  | Except.ok forecastResp =>
  ([Req.imdCurrent, Req.imdForecast],
   if currentResp.status = 200 then
     match currentResp.body with
     | none => Except.error ()
     | some currentData =>
       match (if forecastResp.status = 200 then
                match forecastResp.body with
                | none => Except.error ()
                | some f => Except.ok f
              else Except.ok (Json.obj [])) with
       | Except.error e => Except.error e
       | Except.ok forecastData => normImd currentData forecastData city
   else Except.ok (Json.obj [("error", Json.str "IMD API failed")]))

/-- Normalization of a decoded Open-Meteo payload into the dict built
at lines 140-151. -/
def normOpenMeteo (data : Json) (city state : String) : Except Unit Json :=
  match pyDictGet data "current" (Json.obj []) with
  | Except.error e => Except.error e
  | Except.ok current =>
  match pyDictGet current "temperature_2m" Json.null with
  | Except.error e => Except.error e
  | Except.ok t =>
  match pyDictGet current "relative_humidity_2m" Json.null with
  | Except.error e => Except.error e
  | Except.ok h =>
  match pyDictGet current "wind_speed_10m" (Json.num 0) with
  | Except.error e => Except.error e
  | Except.ok ws =>
  match pyDictGet current "precipitation" (Json.num 0) with
  | Except.error e => Except.error e
  | Except.ok pr =>
  match pyDictGet data "hourly" (Json.obj []) with
  | Except.error e => Except.error e
  | Except.ok fc =>
  Except.ok (Json.obj
    [("current", Json.obj
       [("temp", t),
        ("humidity", h),
        ("weather", Json.arr [Json.obj [("main", Json.str "Clear")]]),
        ("wind", Json.obj [("speed", ws)]),
        ("rain", Json.obj [("1h", pr)])]),
     ("forecast", fc),
     ("location", Json.str (city ++ ", " ++ state)),
     ("source", Json.str "open_meteo")])

/-- Python `str.lower()` on the ASCII city names this code handles,
written over the character list so that it evaluates on literals. -/
def pyLower (s : String) : String :=
  String.mk (s.data.map Char.toLower)

/-- `WeatherService._get_open_meteo_data` (lines 107-152): when the
lower-cased city is absent from `city_coords` the error marker is
returned before any request is issued. -/
def get_open_meteo_data (net : Network) (city state : String) :
    List Req × Except Unit Json :=
  match city_coords.lookup (pyLower city) with
  | none =>
    ([], Except.ok (Json.obj
      [("error", Json.str ("Coordinates not found for " ++ city))]))
  | some _ =>
    ([Req.openMeteo],
     match net.openMeteo with
     | Except.error e => Except.error e
     | Except.ok resp =>
       if resp.status = 200 then
         match resp.body with
         | none => Except.error ()
         | some data => normOpenMeteo data city state
       else Except.ok (Json.obj [("error", Json.str "Open-Meteo API failed")]))

/-- `WeatherService._get_mock_weather_data` (lines 154-164). -/
def get_mock_weather_data (city : String) : Json :=
  Json.obj
    [("temp", Json.num 28.5),
     ("humidity", Json.num 75),
     ("pressure", Json.num 1013),
     ("weather", Json.arr
        [Json.obj [("main", Json.str "Clear"),
                   ("description", Json.str "clear sky")]]),
     ("wind", Json.obj [("speed", Json.num 3.2)]),
     ("rain", Json.obj [("1h", Json.num 0)]),
     ("name", Json.str city)]

/-- `WeatherService._get_mock_forecast_data` (lines 166-176). -/
def get_mock_forecast_data : Json :=
  Json.obj
    [("list", Json.arr
       [Json.obj
          [("main", Json.obj [("temp", Json.num 29), ("humidity", Json.num 70)]),
           ("weather", Json.arr
              [Json.obj [("main", Json.str "Clouds"),
                         ("description", Json.str "few clouds")]]),
           ("dt_txt", Json.str "2025-09-03 12:00:00")]])]

/-- The acceptance test `if data and "error" not in data: return data`
applied to a provider attempt whose exceptions were caught: `some d`
exactly when the attempt returned a truthy dict without the error
marker, so that `get_weather_data` returns it; `none` when the attempt
raised or its result is rejected, so the chain advances. -/
def accept : Except Unit Json → Option Json
  | Except.error _ => none
  | Except.ok d => if pyTruthy d && !jHasKey d "error" then some d else none

/-- `WeatherService.get_weather_data` (lines 17-56): the three provider
attempts in order, each guarded by `try`/`except`, then the mock-data
fallback.  The first component collects every HTTP request issued.  The
outer `except` of lines 55-56 has no counterpart here because in this
model neither the location string nor the mock fallback can raise, so
that branch is unreachable. -/
def get_weather_data (net : Network) (city state : String) : List Req × Json :=
  match accept (get_weather_union_data net city state).2 with
  | some d => ((get_weather_union_data net city state).1, d)
  | none =>
  match accept (get_imd_data net city).2 with
  | some d =>
    ((get_weather_union_data net city state).1 ++ (get_imd_data net city).1, d)
  | none =>
  match accept (get_open_meteo_data net city state).2 with
  | some d =>
    ((get_weather_union_data net city state).1 ++ (get_imd_data net city).1 ++
       (get_open_meteo_data net city state).1, d)
  | none =>
    ((get_weather_union_data net city state).1 ++ (get_imd_data net city).1 ++
       (get_open_meteo_data net city state).1,
     Json.obj
       [("current", get_mock_weather_data city),
        ("forecast", get_mock_forecast_data),
        ("location", Json.str (if state = "" then city else city ++ "," ++ state)),
        ("source", Json.str "mock_data")])

/-- Weather input whose `current` dict carries exactly the keys that
are present among the optional temperature, humidity and rainfall
signals (rainfall nested as `rain["1h"]`, as the code reads it). -/
def mkWeather (topt hopt ropt : Option ℚ) : Json :=
  Json.obj [("current", Json.obj
    ((match topt with | some t => [("temp", Json.num t)] | none => []) ++
     (match hopt with | some h => [("humidity", Json.num h)] | none => []) ++
     (match ropt with | some r => [("rain", Json.obj [("1h", Json.num r)])] | none => [])))]

/-- Weather input like `mkWeather`, but whose `current.humidity` key is
present with an explicit `None` value. -/
def mkWeatherHumNull (topt ropt : Option ℚ) : Json :=
  Json.obj [("current", Json.obj
    ((match topt with | some t => [("temp", Json.num t)] | none => []) ++
     [("humidity", Json.null)] ++
     (match ropt with | some r => [("rain", Json.obj [("1h", Json.num r)])] | none => [])))]

/-- Decision table transcribed from the spec of `irrigationAdvice`
(first match wins, strict comparisons), to be compared with the
code-derived `get_irrigation_recommendation`. -/
def irrigationSpecTable (t h r : ℚ) : String :=
  if r > 5 then msg_rain
  else if h < 40 ∧ t > 35 then msg_extreme_heat
  else if h < 60 ∧ t > 30 then msg_hot_weather
  else msg_regular

/-- The `try` body of `get_irrigation_recommendation` only ever
produces one of the four branch messages, or raises. -/
lemma irrigationCore_cases (wd : Json) :
    irrigationCore wd = Except.error () ∨
      ∃ m, irrigationCore wd = Except.ok m ∧
        m ∈ [msg_rain, msg_extreme_heat, msg_hot_weather, msg_regular] := by
  unfold irrigationCore
  rcases pyDictGet wd "current" (Json.obj []) with e | current
  · left; rfl
  dsimp only
  rcases pyDictGet current "temp" (Json.num 25) with e | temp
  · left; rfl
  dsimp only
  rcases pyDictGet current "humidity" (Json.num 60) with e | humidity
  · left; rfl
  dsimp only
  rcases pyDictGet current "rain" (Json.obj []) with e | rainObj
  · left; rfl
  dsimp only
  rcases pyDictGet rainObj "1h" (Json.num 0) with e | rain
  · left; rfl
  dsimp only
  rcases pyGt rain (Json.num 5) with e | c1
  · left; rfl
  dsimp only
  rcases c1
  case ok.true => right; exact ⟨_, rfl, by simp⟩
  rcases pyAnd (pyLt humidity (Json.num 40)) (pyGt temp (Json.num 35)) with e | c2
  · left; rfl
  rcases c2
  case ok.true => right; exact ⟨_, rfl, by simp⟩
  rcases pyAnd (pyLt humidity (Json.num 60)) (pyGt temp (Json.num 30)) with e | c3
  · left; rfl
  rcases c3
  case ok.true => right; exact ⟨_, rfl, by simp⟩
  right; exact ⟨_, rfl, by simp⟩

/-- The four origin tags a `get_weather_data` result can carry. -/
def sourceTags : List String :=
  ["weather_union", "imd_official", "open_meteo", "mock_data"]

/-- A result whose `current` object carries the `temp` and `humidity`
keys (their values may be `null`). -/
def currentHasKeys (j : Json) : Prop :=
  ∃ cur, jGet j "current" = some cur ∧
    (jGet cur "temp").isSome ∧ (jGet cur "humidity").isSome

/-- Network on which the Weather Union request answers 200 with an
empty JSON object and every other request raises. -/
def netA : Network :=
  { weatherUnion := Except.ok { status := 200, body := some (Json.obj []) }
    imdCurrent := Except.error ()
    imdForecast := Except.error ()
    openMeteo := Except.error () }

/-- Network on which the Weather Union request raises, the IMD
current-weather request answers 200 with an empty JSON object, the IMD
forecast request answers 500, and the Open-Meteo request raises. -/
def netB : Network :=
  { weatherUnion := Except.error ()
    imdCurrent := Except.ok { status := 200, body := some (Json.obj []) }
    imdForecast := Except.ok { status := 500, body := none }
    openMeteo := Except.error () }

/-- Network on which every request raises. -/
def netFail : Network :=
  { weatherUnion := Except.error ()
    imdCurrent := Except.error ()
    imdForecast := Except.error ()
    openMeteo := Except.error () }

/-- The value Provider A normalization produces on `netA` for city
`delhi` with an empty state. -/
def dA0 : Json :=
  Json.obj
    [("current", Json.obj
       [("temp", Json.null),
        ("humidity", Json.null),
        ("pressure", Json.null),
        ("weather", Json.arr [Json.obj [("main", Json.str "Clear")]]),
        ("wind", Json.obj [("speed", Json.num 0)]),
        ("rain", Json.obj [("1h", Json.num 0)])]),
     ("location", Json.str "delhi, "),
     ("source", Json.str "weather_union")]

/-- The value Provider B normalization produces on `netB` for city
`delhi`. -/
def dB0 : Json :=
  Json.obj
    [("current", Json.obj
       [("temp", Json.null),
        ("humidity", Json.null),
        ("pressure", Json.null),
        ("weather", Json.arr [Json.obj [("main", Json.str "Clear")]]),
        ("wind", Json.obj [("speed", Json.num 0)]),
        ("rain", Json.obj [("1h", Json.num 0)])]),
     ("forecast", Json.obj []),
     ("location", Json.str "delhi"),
     ("source", Json.str "imd_official")]

/-- On an object, `pyDictGet` never raises and computes the lookup
with default. -/
lemma pyDictGet_obj (fs : List (String × Json)) (k : String) (d : Json) :
    pyDictGet (Json.obj fs) k d = Except.ok ((fs.lookup k).getD d) := by
  unfold pyDictGet
  dsimp only
  cases fs.lookup k <;> rfl

/-- Any value the Weather Union attempt gets past the acceptance test
carries the `weather_union` tag, has the `temp` and `humidity` keys in
its `current` object, and has no `forecast` key. -/
lemma accept_wu {net : Network} {city state : String} {d : Json}
    (h : accept (get_weather_union_data net city state).2 = some d) :
    jGet d "source" = some (Json.str "weather_union") ∧ currentHasKeys d ∧
      jGet d "forecast" = none := by
  unfold get_weather_union_data at h
  rcases hn : net.weatherUnion with e | resp
  · rw [hn] at h; simp [accept] at h
  rw [hn] at h
  dsimp only at h
  by_cases hs : resp.status = 200
  · rw [if_pos hs] at h
    rcases hb : resp.body with _ | data
    · rw [hb] at h; simp [accept] at h
    rw [hb] at h
    dsimp only at h
    rcases data with _ | b | q | s | xs | fs
    · simp [normWeatherUnion, pyDictGet, accept] at h
    · simp [normWeatherUnion, pyDictGet, accept] at h
    · simp [normWeatherUnion, pyDictGet, accept] at h
    · simp [normWeatherUnion, pyDictGet, accept] at h
    · simp [normWeatherUnion, pyDictGet, accept] at h
    · simp only [normWeatherUnion, pyDictGet_obj] at h
      simp [accept, pyTruthy, jHasKey, jGet, List.lookup] at h
      subst h
      exact ⟨rfl, ⟨_, rfl, rfl, rfl⟩, rfl⟩
  · rw [if_neg hs] at h
    simp [accept, pyTruthy, jHasKey, jGet, List.lookup] at h

/-- Shape of any accepted IMD normalization result. -/
lemma accept_normImd {cd fd : Json} {city : String} {d : Json}
    (h : accept (normImd cd fd city) = some d) :
    jGet d "source" = some (Json.str "imd_official") ∧ currentHasKeys d ∧
      (jGet d "forecast").isSome := by
  rcases cd with _ | b | q | s | xs | fs
  · simp [normImd, pyDictGet, accept] at h
  · simp [normImd, pyDictGet, accept] at h
  · simp [normImd, pyDictGet, accept] at h
  · simp [normImd, pyDictGet, accept] at h
  · simp [normImd, pyDictGet, accept] at h
  · simp only [normImd, pyDictGet_obj] at h
    simp [accept, pyTruthy, jHasKey, jGet, List.lookup] at h
    subst h
    exact ⟨rfl, ⟨_, rfl, rfl, rfl⟩, rfl⟩

/-- Any value the IMD attempt gets past the acceptance test carries
the `imd_official` tag, has the `temp` and `humidity` keys in its
`current` object, and has a `forecast` key. -/
lemma accept_imd {net : Network} {city : String} {d : Json}
    (h : accept (get_imd_data net city).2 = some d) :
    jGet d "source" = some (Json.str "imd_official") ∧ currentHasKeys d ∧
      (jGet d "forecast").isSome := by
  unfold get_imd_data at h
  rcases hn : net.imdCurrent with e | currentResp
  · rw [hn] at h; simp [accept] at h
  rw [hn] at h
  dsimp only at h
  rcases hf : net.imdForecast with e | forecastResp
  · rw [hf] at h; simp [accept] at h
  rw [hf] at h
  dsimp only at h
  by_cases hs : currentResp.status = 200
  · rw [if_pos hs] at h
    rcases hb : currentResp.body with _ | currentData
    · rw [hb] at h; simp [accept] at h
    rw [hb] at h
    dsimp only at h
    by_cases hfs : forecastResp.status = 200
    · rw [if_pos hfs] at h
      rcases hfb : forecastResp.body with _ | f
      · rw [hfb] at h; simp [accept] at h
      rw [hfb] at h
      dsimp only at h
      exact accept_normImd h
    · rw [if_neg hfs] at h
      dsimp only at h
      exact accept_normImd h
  · rw [if_neg hs] at h
    simp [accept, pyTruthy, jHasKey, jGet, List.lookup] at h

/-- Shape of any accepted Open-Meteo normalization result. -/
lemma accept_normOM {data : Json} {city state : String} {d : Json}
    (h : accept (normOpenMeteo data city state) = some d) :
    jGet d "source" = some (Json.str "open_meteo") ∧ currentHasKeys d ∧
      (jGet d "forecast").isSome := by
  rcases data with _ | b | q | s | xs | fs
  · simp [normOpenMeteo, pyDictGet, accept] at h
  · simp [normOpenMeteo, pyDictGet, accept] at h
  · simp [normOpenMeteo, pyDictGet, accept] at h
  · simp [normOpenMeteo, pyDictGet, accept] at h
  · simp [normOpenMeteo, pyDictGet, accept] at h
  · simp only [normOpenMeteo, pyDictGet_obj] at h
    rcases hc : (List.lookup "current" fs).getD (Json.obj []) with _ | b2 | q2 | s2 | xs2 | fs2 <;>
      rw [hc] at h
    · simp [pyDictGet, accept] at h
    · simp [pyDictGet, accept] at h
    · simp [pyDictGet, accept] at h
    · simp [pyDictGet, accept] at h
    · simp [pyDictGet, accept] at h
    · simp only [pyDictGet_obj] at h
      simp [accept, pyTruthy, jHasKey, jGet, List.lookup] at h
      subst h
      exact ⟨rfl, ⟨_, rfl, rfl, rfl⟩, rfl⟩

/-- Any value the Open-Meteo attempt gets past the acceptance test
carries the `open_meteo` tag, has the `temp` and `humidity` keys in
its `current` object, and has a `forecast` key. -/
lemma accept_om {net : Network} {city state : String} {d : Json}
    (h : accept (get_open_meteo_data net city state).2 = some d) :
    jGet d "source" = some (Json.str "open_meteo") ∧ currentHasKeys d ∧
      (jGet d "forecast").isSome := by
  unfold get_open_meteo_data at h
  rcases hcc : city_coords.lookup (pyLower city) with _ | coords
  · rw [hcc] at h
    dsimp only at h
    simp [accept, pyTruthy, jHasKey, jGet, List.lookup] at h
  rw [hcc] at h
  dsimp only at h
  rcases hn : net.openMeteo with e | resp
  · rw [hn] at h; simp [accept] at h
  rw [hn] at h
  dsimp only at h
  by_cases hs : resp.status = 200
  · rw [if_pos hs] at h
    rcases hb : resp.body with _ | data
    · rw [hb] at h; simp [accept] at h
    rw [hb] at h
    dsimp only at h
    exact accept_normOM h
  · rw [if_neg hs] at h
    simp [accept, pyTruthy, jHasKey, jGet, List.lookup] at h

/-- `get_irrigation_recommendation` agrees with the spec's decision
table on every input built from optional numeric signals, with the
documented defaults for the absent ones. -/
lemma irrigation_table (xo yo zo : Option ℚ) (crop : String) :
    get_irrigation_recommendation (mkWeather xo yo zo) crop
      = irrigationSpecTable (xo.getD 25) (yo.getD 60) (zo.getD 0) := by
  rcases xo with _ | t <;> rcases yo with _ | h <;> rcases zo with _ | r <;>
    simp [mkWeather, get_irrigation_recommendation, irrigationCore,
      irrigationSpecTable, pyDictGet, pyGt, pyLt, pyAnd, toNum, List.lookup]
  all_goals try norm_num
  all_goals (split_ifs <;> simp_all <;> try linarith)
  all_goals (split_ifs <;> simp_all <;> try linarith)

/-- C3: `get_irrigation_recommendation` implements the spec's decision
table with first-match-wins order and strict comparisons, defaulting a
missing temperature to 25, humidity to 60 and rainfall to 0; in
particular temperature 36 with humidity 39 hits the extreme-heat
branch while temperature 35 with humidity 39 hits the hot-weather
branch. -/
theorem irrigation_matches_spec_table (topt hopt ropt : Option ℚ) (crop : String) :
    get_irrigation_recommendation (mkWeather topt hopt ropt) crop
      = irrigationSpecTable (topt.getD 25) (hopt.getD 60) (ropt.getD 0)
    ∧ get_irrigation_recommendation (mkWeather (some 36) (some 39) (some 0)) crop
      = msg_extreme_heat
    ∧ get_irrigation_recommendation (mkWeather (some 35) (some 39) (some 0)) crop
      = msg_hot_weather := by
  refine ⟨irrigation_table topt hopt ropt crop, ?_, ?_⟩
  · rw [irrigation_table]; norm_num [irrigationSpecTable]
  · rw [irrigation_table]; norm_num [irrigationSpecTable]

/-- C7: `get_irrigation_recommendation` is total: its value is always
one of the four branch messages or the generic unavailable-data
message; an empty weather object gets the default-based regular
recommendation, and a malformed (non-dict) input is absorbed by the
`except` handler into the generic message. -/
theorem irrigation_never_raises (wd : Json) (crop : String) :
    get_irrigation_recommendation wd crop ∈
      [msg_rain, msg_extreme_heat, msg_hot_weather, msg_regular, msg_unavailable]
    ∧ get_irrigation_recommendation (Json.obj []) crop = msg_regular
    ∧ get_irrigation_recommendation Json.null crop = msg_unavailable := by
  refine ⟨?_, ?_, rfl⟩
  · unfold get_irrigation_recommendation
    rcases irrigationCore_cases wd with h | ⟨m, h, hm⟩ <;> rw [h]
    · simp
    · simp only [List.mem_cons, List.not_mem_nil, or_false] at hm ⊢
      tauto
  · simp [get_irrigation_recommendation, irrigationCore, pyDictGet, pyGt,
      pyLt, pyAnd, toNum, List.lookup]
    norm_num

/-- C8: the defaults of `get_irrigation_recommendation` apply only to
absent keys: a `current.humidity` key present with an explicit `None`
flows into the `humidity < 40` comparison, raises, and is converted by
the handler into the generic unavailable-data message whenever the
rainfall signal is absent or at most 5. -/
theorem null_humidity_falls_back (topt : Option ℚ) (r : ℚ) (crop : String) :
    get_irrigation_recommendation (mkWeatherHumNull topt none) crop = msg_unavailable
    ∧ (r ≤ 5 →
        get_irrigation_recommendation (mkWeatherHumNull topt (some r)) crop
          = msg_unavailable) := by
  constructor
  · rcases topt with _ | t <;>
      simp [mkWeatherHumNull, get_irrigation_recommendation, irrigationCore,
        pyDictGet, pyGt, pyLt, pyAnd, toNum, List.lookup] <;>
      norm_num
  · intro hr
    rcases topt with _ | t <;>
      simp [mkWeatherHumNull, get_irrigation_recommendation, irrigationCore,
        pyDictGet, pyGt, pyLt, pyAnd, toNum, List.lookup, not_lt.mpr hr]

/-- Witness for C8: with rainfall 3 and an explicit `None` humidity
the generic fallback message is returned. -/
theorem null_humidity_falls_back_witness :
    (3 : ℚ) ≤ 5
    ∧ get_irrigation_recommendation (mkWeatherHumNull none (some 3)) "rice"
        = msg_unavailable :=
  ⟨by norm_num, (null_humidity_falls_back none 3 "rice").2 (by norm_num)⟩

/-- C9: the irrigation recommendation is independent of the `crop`
argument, which the source accepts and never reads. -/
theorem irrigation_ignores_crop (wd : Json) (crop1 crop2 : String) :
    get_irrigation_recommendation wd crop1 = get_irrigation_recommendation wd crop2 :=
  rfl

/-- The IMD attempt never issues the Open-Meteo request. -/
lemma imd_no_om_request (net : Network) (city : String) :
    Req.openMeteo ∉ (get_imd_data net city).1 := by
  unfold get_imd_data
  rcases net.imdCurrent with e | c
  · simp
  rcases net.imdForecast with e | f <;> simp

/-- C1: for every network behavior and every input, `get_weather_data`
returns a value whose `source` field is one of the four provider tags;
no branch of the model raises. -/
theorem resolve_source_tag (net : Network) (city state : String) :
    ∃ t, jGet (get_weather_data net city state).2 "source" = some (Json.str t)
      ∧ t ∈ sourceTags := by
  unfold get_weather_data
  rcases h1 : accept (get_weather_union_data net city state).2 with _ | d1
  · rcases h2 : accept (get_imd_data net city).2 with _ | d2
    · rcases h3 : accept (get_open_meteo_data net city state).2 with _ | d3
      · exact ⟨"mock_data", rfl, by simp [sourceTags]⟩
      · exact ⟨"open_meteo", (accept_om h3).1, by simp [sourceTags]⟩
    · exact ⟨"imd_official", (accept_imd h2).1, by simp [sourceTags]⟩
  · exact ⟨"weather_union", (accept_wu h1).1, by simp [sourceTags]⟩

/-- C2: the providers are tried strictly in the order Weather Union,
IMD, Open-Meteo, and the first accepted payload short-circuits: a
Weather Union acceptance makes the result exactly its payload with the
only issued request being the Weather Union one, and a Weather Union
failure followed by an IMD acceptance yields the IMD payload with the
Open-Meteo request never issued. -/
theorem provider_priority_order (net : Network) (city state : String) :
    (∀ d, accept (get_weather_union_data net city state).2 = some d →
       get_weather_data net city state = ([Req.weatherUnion], d)
       ∧ jGet d "source" = some (Json.str "weather_union"))
    ∧ (∀ d, accept (get_weather_union_data net city state).2 = none →
       accept (get_imd_data net city).2 = some d →
       (get_weather_data net city state).2 = d
       ∧ jGet d "source" = some (Json.str "imd_official")
       ∧ Req.openMeteo ∉ (get_weather_data net city state).1) := by
  constructor
  · intro d hd
    have hsrc := (accept_wu hd).1
    unfold get_weather_data
    rw [hd]
    exact ⟨rfl, hsrc⟩
  · intro d hn hd
    have hsrc := (accept_imd hd).1
    have hreq := imd_no_om_request net city
    unfold get_weather_data
    rw [hn, hd]
    refine ⟨rfl, hsrc, ?_⟩
    simp [get_weather_union_data, List.mem_append, hreq]

/-- Witness for C2 on concrete networks: on `netA` the Weather Union
payload short-circuits, on `netB` the IMD payload is returned and the
Open-Meteo request is never issued. -/
theorem provider_priority_order_witness :
    (get_weather_data netA "delhi" "" = ([Req.weatherUnion], dA0)
     ∧ jGet dA0 "source" = some (Json.str "weather_union"))
    ∧ ((get_weather_data netB "delhi" "").2 = dB0
       ∧ jGet dB0 "source" = some (Json.str "imd_official")
       ∧ Req.openMeteo ∉ (get_weather_data netB "delhi" "").1) :=
  ⟨(provider_priority_order netA "delhi" "").1 dA0 rfl,
   (provider_priority_order netB "delhi" "").2 dB0 rfl rfl⟩

/-- C4: when all three provider attempts are rejected, the result is
the synthetic fallback: `source = mock_data` and the `current` object
is the fixed mock value whose temperature 28.5 and humidity 75 are the
same constants for every city. -/
theorem all_providers_fail_mock (net : Network) (city state : String)
    (h1 : accept (get_weather_union_data net city state).2 = none)
    (h2 : accept (get_imd_data net city).2 = none)
    (h3 : accept (get_open_meteo_data net city state).2 = none) :
    jGet (get_weather_data net city state).2 "source" = some (Json.str "mock_data")
    ∧ jGet (get_weather_data net city state).2 "current"
        = some (get_mock_weather_data city)
    ∧ jGet (get_mock_weather_data city) "temp" = some (Json.num 28.5)
    ∧ jGet (get_mock_weather_data city) "humidity" = some (Json.num 75) := by
  unfold get_weather_data
  rw [h1, h2, h3]
  exact ⟨rfl, rfl, rfl, rfl⟩

/-- Witness for C4: on the all-raising network every attempt is
rejected and the mock values are returned. -/
theorem all_providers_fail_mock_witness :
    jGet (get_weather_data netFail "paris" "").2 "source"
      = some (Json.str "mock_data")
    ∧ jGet (get_weather_data netFail "paris" "").2 "current"
        = some (get_mock_weather_data "paris")
    ∧ jGet (get_mock_weather_data "paris") "temp" = some (Json.num 28.5)
    ∧ jGet (get_mock_weather_data "paris") "humidity" = some (Json.num 75) :=
  all_providers_fail_mock netFail "paris" "" rfl rfl rfl

/-- Counterexample to C5 as stated: on `netA` the Weather Union
provider succeeds and the returned value has no `forecast` key at
all. -/
theorem resolve_forecast_missing_cex :
    jGet (get_weather_data netA "delhi" "").2 "source"
      = some (Json.str "weather_union")
    ∧ jGet (get_weather_data netA "delhi" "").2 "forecast" = none :=
  ⟨rfl, rfl⟩

/-- C5 amended: every `get_weather_data` result has `temp` and
`humidity` keys in its `current` object and a `source` tag that
reflects the true origin of the data (each tag holds exactly when the
corresponding attempt is the first accepted one, `mock_data` exactly
when all fail); a `forecast` key is present if and only if the result
does not come from Weather Union, whose normalization omits it. -/
theorem resolve_result_shape (net : Network) (city state : String) :
    currentHasKeys (get_weather_data net city state).2
    ∧ ((jGet (get_weather_data net city state).2 "forecast").isSome
        ↔ jGet (get_weather_data net city state).2 "source"
            ≠ some (Json.str "weather_union"))
    ∧ (jGet (get_weather_data net city state).2 "source"
          = some (Json.str "weather_union")
        ↔ ∃ d, accept (get_weather_union_data net city state).2 = some d)
    ∧ (jGet (get_weather_data net city state).2 "source"
          = some (Json.str "imd_official")
        ↔ accept (get_weather_union_data net city state).2 = none
          ∧ ∃ d, accept (get_imd_data net city).2 = some d)
    ∧ (jGet (get_weather_data net city state).2 "source"
          = some (Json.str "open_meteo")
        ↔ accept (get_weather_union_data net city state).2 = none
          ∧ accept (get_imd_data net city).2 = none
          ∧ ∃ d, accept (get_open_meteo_data net city state).2 = some d)
    ∧ (jGet (get_weather_data net city state).2 "source"
          = some (Json.str "mock_data")
        ↔ accept (get_weather_union_data net city state).2 = none
          ∧ accept (get_imd_data net city).2 = none
          ∧ accept (get_open_meteo_data net city state).2 = none) := by
  unfold get_weather_data
  rcases h1 : accept (get_weather_union_data net city state).2 with _ | d1
  · rcases h2 : accept (get_imd_data net city).2 with _ | d2
    · rcases h3 : accept (get_open_meteo_data net city state).2 with _ | d3
      · refine ⟨⟨get_mock_weather_data city, rfl, rfl, rfl⟩, ?_, ?_, ?_, ?_, ?_⟩ <;>
          simp [h1, h2, h3, jGet, List.lookup, get_mock_forecast_data]
      · obtain ⟨hsrc, hck, hfc⟩ := accept_om h3
        refine ⟨hck, ?_, ?_, ?_, ?_, ?_⟩ <;> simp [hsrc, hfc, h1, h2, h3]
    · obtain ⟨hsrc, hck, hfc⟩ := accept_imd h2
      refine ⟨hck, ?_, ?_, ?_, ?_, ?_⟩ <;> simp [hsrc, hfc, h1, h2]
  · obtain ⟨hsrc, hck, hfc⟩ := accept_wu h1
    refine ⟨hck, ?_, ?_, ?_, ?_, ?_⟩ <;> simp [hsrc, hfc, h1]

/-- C6: when the lower-cased city is not in the static coordinate
table, the Open-Meteo attempt returns the error marker at once and
issues no HTTP request. -/
theorem open_meteo_fails_fast (net : Network) (city state : String)
    (h : city_coords.lookup (pyLower city) = none) :
    get_open_meteo_data net city state
      = ([], Except.ok (Json.obj
          [("error", Json.str ("Coordinates not found for " ++ city))])) := by
  unfold get_open_meteo_data
  rw [h]

/-- Witness for C6: london is absent from the coordinate table and the
attempt issues no request. -/
theorem open_meteo_fails_fast_witness :
    city_coords.lookup (pyLower "london") = none
    ∧ get_open_meteo_data netFail "london" ""
        = ([], Except.ok (Json.obj
            [("error", Json.str ("Coordinates not found for " ++ "london"))])) :=
  ⟨rfl, open_meteo_fails_fast netFail "london" "" rfl⟩

/-- C10: an IMD success does not require the forecast endpoint: if the
current-weather request answers 200 with a JSON-object body and the
forecast request answers with a non-200 status, the IMD attempt
returns a well-formed `imd_official` value whose forecast is the empty
object. -/
theorem imd_tolerates_forecast_failure (net : Network) (city : String)
    (r1 r2 : HttpResponse) (cfs : List (String × Json))
    (h1 : net.imdCurrent = Except.ok r1) (h2 : r1.status = 200)
    (h3 : r1.body = some (Json.obj cfs))
    (h4 : net.imdForecast = Except.ok r2) (h5 : r2.status ≠ 200) :
    ∃ d, (get_imd_data net city).2 = Except.ok d
      ∧ jGet d "source" = some (Json.str "imd_official")
      ∧ jGet d "forecast" = some (Json.obj [])
      ∧ jHasKey d "error" = false := by
  unfold get_imd_data
  rw [h1, h4]
  dsimp only
  rw [if_pos h2, h3]
  dsimp only
  rw [if_neg h5]
  dsimp only
  simp only [normImd, pyDictGet_obj]
  exact ⟨_, rfl, rfl, rfl, rfl⟩

/-- Witness for C10 on `netB`: current answers 200 with an empty
object, forecast answers 500, and the attempt still succeeds with an
empty forecast. -/
theorem imd_tolerates_forecast_failure_witness :
    ∃ d, (get_imd_data netB "delhi").2 = Except.ok d
      ∧ jGet d "source" = some (Json.str "imd_official")
      ∧ jGet d "forecast" = some (Json.obj [])
      ∧ jHasKey d "error" = false :=
  imd_tolerates_forecast_failure netB "delhi"
    { status := 200, body := some (Json.obj []) }
    { status := 500, body := none } [] rfl rfl rfl rfl (by decide)

end AgriAdvisor
